import Mathlib

/-!
Verification of the blueshed-gust RPC dispatch engine
(`src/blueshed/gust/websocket.py`), stream controller, broadcast registry
and the PostgreSQL backend procedure adapter
(`src/blueshed/gust/postgres_rpc.py`), as a shallow embedding in Lean 4.
-/

namespace Gust

/-- JSON values as decoded by `json_utils.loads` (Python `json.loads`):
`null`/`None`, booleans, numbers (modelled as integers), strings, arrays
(Python lists) and objects (Python dicts, as association lists). -/
inductive Json where
  | null
  | bool (b : Bool)
  | num (n : Int)
  | str (s : String)
  | arr (items : List Json)
  | obj (fields : List (String × Json))

/-- Python truthiness of a decoded JSON value: `None`, `False`, `0`, `''`,
`[]` and `{}` are falsy, everything else truthy. -/
def Json.truthy : Json → Bool
  | .null => false
  | .bool b => b
  | .num n => n != 0
  | .str s => s != ""
  | .arr items => !items.isEmpty
  | .obj fields => !fields.isEmpty

/-- `d.get(key)` on a decoded JSON object: `none` when the receiver is not
an object or the key is absent. -/
def Json.get? : Json → String → Option Json
  | .obj fields, key => fields.lookup key
  | _, _ => none

/-- `isinstance(v, list)`. -/
def Json.isArr : Json → Bool
  | .arr _ => true
  | _ => false

/-- `isinstance(v, dict)`. -/
def Json.isObj : Json → Bool
  | .obj _ => true
  | _ => false

/-- Python hashability of a decoded JSON value: lists and dicts are
unhashable, every other decoded value (`None`, bool, number, string) is
hashable.  A dict-membership test on an unhashable value raises
`TypeError`. -/
def Json.hashable : Json → Bool
  | .arr _ => false
  | .obj _ => false
  | _ => true

/-- Errors captured into a `JsonRpcResponse.error` field
(`utils.JsonRpcResponse.__post_init__`): a `JsonRpcException` is kept as
`{code, message}`, any other exception is stringified. -/
inductive RpcError where
  | rpcExc (code : Int) (message : String)
  | exc (message : String)

/-- A handler result: either a plain JSON value (Python `None` is
`Json.null`) or a `stream.Stream` marker carrying its generated id and the
items its producer will yield. -/
inductive HResult where
  | val (v : Json)
  | stream (id : String) (gen : List Json)

/-- The response envelope queued by `Websocket.call_func`
(`utils.JsonRpcResponse`): echoed id, optional result, optional captured
error. -/
structure Response where
  id : Json
  result : Option HResult
  error : Option RpcError

/-- A record of one handler invocation performed by the dispatch engine:
an RPC handler receives positional `args` and named `kwargs`; a plain
event handler receives the connection plus an optional `message` payload. -/
inductive HandlerRun where
  | rpc (proc : String) (args : List Json) (kwargs : List (String × Json))
  | plain (event : String) (message : Option String)

/-- The observable effects of one `Websocket.call_func` invocation:
`closed` records a `self.close(code, reason)`, `responses` the
`JsonRpcResponse` frames handed to `queue_message`, `streams` the
`create_stream(gen, stream_id)` hand-offs, `runs` the handler executions,
`removedClient` whether `remove_client` ran, and `uncaught` whether an
exception escaped `call_func` uncaught, killing the dispatching task (the
`TypeError` raised by the dict-membership test on an unhashable `method`
value, which sits outside the `try/except`). -/
structure Effects where
  closed : Option (Int × String)
  responses : List Response
  streams : List (String × List Json)
  runs : List HandlerRun
  removedClient : Bool
  uncaught : Bool

/-- The per-path `configs.WsConfig` held in `method_settings`: the path
auth flag, the registered RPC method names (`ws_rpc` keys) and whether
each plain-event slot holds a handler. -/
structure MethodSettings where
  auth : Bool
  ws_rpc : List String
  ws_message : Bool
  ws_open : Bool
  ws_close : Bool

/-- `getattr(self.method_settings, method) is not None` for the three
plain-event slots of `WsConfig`. -/
def MethodSettings.hasPlain (s : MethodSettings) : String → Bool
  | "ws_message" => s.ws_message
  | "ws_open" => s.ws_open
  | "ws_close" => s.ws_close
  | _ => false

/-- The inbound `data` argument of `call_func`: absent (`None`), plain
text that does not start with the `{"jsonrpc":` marker (the empty string
is plain: the code tests `data and data.startswith(...)`), or a frame that
starts with the marker, already decoded to its JSON content. -/
inductive FrameData where
  | noData
  | text (s : String)
  | rpc (content : Json)

/-- Behaviour of the registered RPC handlers: for a method name, positional
args and named kwargs, either a result or a raised exception. -/
def RpcHandlers := String → List Json → List (String × Json) → Except RpcError HResult

/-- Outcome of the parse phase of the RPC branch of `call_func`: an error
captured for the response, a resolved handler with its args and kwargs, or
an exception escaping `call_func` uncaught. -/
inductive ParseOutcome where
  | err (e : RpcError)
  | ok (name : String) (args : List Json) (kwargs : List (String × Json))
  | crash

/-- The parse phase of the RPC branch of `call_func` (websocket.py lines
65-85): resolve `method` (`None` → -32600 "no method"; an unhashable
value — a decoded list or dict — makes the membership test
`proc not in self.method_settings.ws_rpc` on line 70 raise an uncaught
`TypeError`, since that line sits outside the `try/except`; any other
value that is not a registered key → -32600 "not method"), then extract
`params` (`content.get('params', {})`): a truthy value that is neither
list nor dict → -32602 "Params neither list or dict"; `args` is `params`
when a truthy list, else `[]`; `kwargs` is `params` when a truthy dict,
else `{}`. -/
def parse_rpc (s : MethodSettings) (content : Json) : ParseOutcome :=
  match content.get? "method" with
  | none => .err (.rpcExc (-32600) "no method")
  | some .null => .err (.rpcExc (-32600) "no method")
  | some proc =>
    if proc.hashable then
      match proc with
      | .str name =>
        if s.ws_rpc.contains name then
          let params := (content.get? "params").getD (.obj [])
          if params.truthy && !(params.isObj || params.isArr) then
            .err (.rpcExc (-32602) "Params neither list or dict")
          else
            .ok name
               (match params with | .arr items => items | _ => [])
               (match params with | .obj fields => fields | _ => [])
        else .err (.rpcExc (-32600) "not method")
      | _ => .err (.rpcExc (-32600) "not method")
    else .crash

/-- Shallow embedding of `Websocket.call_func` (websocket.py lines 50-125).
The auth gate runs first; then the frame is dispatched either as a
JSON-RPC envelope or as a plain event; handler exceptions are captured;
a response frame and the stream hand-off are gated on a truthy `ref`;
the `finally` block for the `ws_close` event removes the client and
clears `ref`. A plain-event handler's result or exception is unobservable
(`ref` is `None`, exceptions are only logged), so the model records only
the invocation itself in `runs`. -/
def call_func (s : MethodSettings) (user : Option Json)
    (rpcH : RpcHandlers) (method : String) (data : FrameData) : Effects :=
  if s.auth && user.isNone then
    { closed := some (401, "not authenticated"), responses := [],
      streams := [], runs := [], removedClient := false, uncaught := false }
  else
    match data with
    | .rpc content =>
      let ref := (content.get? "id").getD .null
      match parse_rpc s content with
      | .crash =>
        { closed := none, responses := [], streams := [], runs := [],
          removedClient := false, uncaught := true }
      | .err e =>
        { closed := none,
          responses := if ref.truthy then [⟨ref, none, some e⟩] else [],
          streams := [], runs := [], removedClient := false,
          uncaught := false }
      | .ok name args kwargs =>
        let ref := if method == "ws_close" then Json.null else ref
        match rpcH name args kwargs with
        | .error ex =>
          { closed := none,
            responses := if ref.truthy then [⟨ref, none, some ex⟩] else [],
            streams := [],
            runs := [.rpc name args kwargs],
            removedClient := method == "ws_close", uncaught := false }
        | .ok res =>
          { closed := none,
            responses := if ref.truthy then [⟨ref, some res, none⟩] else [],
            streams :=
              if ref.truthy then
                match res with
                | .stream sid gen => [(sid, gen)]
                | .val _ => []
              else [],
            runs := [.rpc name args kwargs],
            removedClient := method == "ws_close", uncaught := false }
    | .noData =>
      if s.hasPlain method then
        { closed := none, responses := [], streams := [],
          runs := [.plain method none],
          removedClient := method == "ws_close", uncaught := false }
      else
        { closed := none, responses := [], streams := [], runs := [],
          removedClient := method == "ws_close", uncaught := false }
    | .text t =>
      if s.hasPlain method then
        { closed := none, responses := [], streams := [],
          runs := [.plain method (if t == "" then none else some t)],
          removedClient := method == "ws_close", uncaught := false }
      else
        { closed := none, responses := [], streams := [], runs := [],
          removedClient := method == "ws_close", uncaught := false }

/-- One protocol frame written by the stream controller
(`Websocket.stream_message`): an item frame `{stream_id, args: item}` or
the terminator `{stream_id, count}`.  The stream id is a `Json` value
because, when taken from the producer, it may be any item. -/
inductive StreamFrame where
  | item (stream_id : Json) (args : Json)
  | done (stream_id : Json) (count : Nat)

/-- Shallow embedding of `Websocket.stream_results` (websocket.py lines
219-229) for a producer that yields the items of `gen` and then
exhausts.  If `stream_id` is `None` it is taken as the first item
(`await anext(gen)` — which raises `StopAsyncIteration` on an empty
producer, modelled as the `.error` case); each remaining item is written
as an item frame and a final `{stream_id, count}` frame closes the
stream. -/
def stream_results (gen : List Json) : Option Json → Except String (List StreamFrame)
  | some sid => .ok (gen.map (StreamFrame.item sid) ++ [.done sid gen.length])
  | none =>
    match gen with
    | [] => .error "StopAsyncIteration"
    | sid :: rest => .ok (rest.map (StreamFrame.item sid) ++ [.done sid rest.length])

mutual

/-- Python `==` on decoded JSON values, used by the `in` membership test of
`Websocket.broadcast`.  (Python's numeric conflation of `True` with `1` is
not modelled; broadcast id filters are declared `List[int]`.) -/
def Json.beq : Json → Json → Bool
  | .null, .null => true
  | .bool a, .bool b => a == b
  | .num a, .num b => a == b
  | .str a, .str b => a == b
  | .arr a, .arr b => Json.beqList a b
  | .obj a, .obj b => Json.beqFields a b
  | _, _ => false

/-- Python `==` on JSON arrays, elementwise. -/
def Json.beqList : List Json → List Json → Bool
  | [], [] => true
  | a :: restA, b :: restB => Json.beq a b && Json.beqList restA restB
  | _, _ => false

/-- Python `==` on JSON objects; association lists are compared pairwise in
order (decoded objects with the same keys in the same order). -/
def Json.beqFields : List (String × Json) → List (String × Json) → Bool
  | [], [] => true
  | (k, v) :: restA, (l, w) :: restB =>
      k == l && Json.beq v w && Json.beqFields restA restB
  | _, _ => false

end

/-- One live websocket connection as seen by `Websocket.broadcast`: only
its `current_user` matters (a decoded cookie object, or `None`). -/
structure Client where
  current_user : Option (List (String × Json))

/-- The skip test of `Websocket.broadcast` (websocket.py lines 196-200):
`client_ids and (client.current_user is None or
client.current_user.get('id') not in client_ids)`.  Note that both a
missing filter (`None`) and an empty filter list are falsy, so neither
skips anyone. -/
def skipClient (client_ids : Option (List Json)) (c : Client) : Bool :=
  match client_ids with
  | none => false
  | some ids =>
    !ids.isEmpty &&
      (match c.current_user with
       | none => true
       | some u => !(ids.any (Json.beq ((u.lookup "id").getD .null))))

/-- Shallow embedding of `Websocket.broadcast` (websocket.py lines
183-201): look up the live connections registered under `path`
(`cls._clients_.get(tornado_path)`), and return, in order, the clients
whose message is enqueued (everyone not skipped by `skipClient`).
Message serialization is identity-preserving and not modelled. -/
def broadcast (clients : List (String × List Client)) (path : String)
    (client_ids : Option (List Json)) : List Client :=
  match clients.lookup path with
  | none => []
  | some cs => cs.filter (fun c => !skipClient client_ids c)

/-! ## Backend procedure adapter (`postgres_rpc.py`) -/

/-- The `params` argument of `PostgresRPC.call`: `None`, a list
(positional), a dict (named), or any other shape. -/
inductive PgParams where
  | noParams
  | pos (args : List Json)
  | named (fields : List (String × Json))
  | other

/-- An error raised by the adapter: a `ValueError` it constructs itself, or
a re-raised backend (psycopg) exception. -/
inductive PgError where
  | valueError (msg : String)
  | backendError (msg : String)

/-- The backend connector collaborator (psycopg connection): `execute`
runs `SELECT schema.method(args...)` and returns the first column of the
first row (`none` when no row) or raises, in both cases with a resulting
session state; `rollback` is `connection.rollback()`. -/
structure Backend (σ : Type) where
  execute : σ → String → String → List Json → Except String (Option Json) × σ
  rollback : σ → σ

/-- Outcome of one adapter call: the returned value or raised error, the
final backend session state, and the backend invocations performed
(method name with the positional argument list actually executed). -/
structure CallOutcome (σ : Type) where
  result : Except PgError Json
  state : σ
  backendCalls : List (String × List Json)

/-- The named-parameter reordering loop of `PostgresRPC.call`
(postgres_rpc.py lines 118-126): walk the cached signature in order; the
first signature-listed name missing from the mapping raises
`Missing required parameter: <name> for function <method>`; otherwise the
looked-up values are collected positionally. -/
def reorder_params (method : String) (fields : List (String × Json)) :
    List String → Except PgError (List Json)
  | [] => .ok []
  | name :: rest =>
    match fields.lookup name with
    | none => .error (.valueError
        ("Missing required parameter: " ++ name ++ " for function " ++ method))
    | some v => (reorder_params method fields rest).map (v :: ·)

/-- `method.startswith('_')`: the private-convention check, as a test on
the first character. -/
def startsWithUnderscore (method : String) : Bool :=
  match method.data with
  | [] => false
  | c :: _ => c == '_'

/-- The params normalisation section of `PostgresRPC.call` (postgres_rpc.py
lines 108-130): `None` → `[]`; a dict → signature lookup (an empty cached
signature — function not found or zero input parameters — raises
`Function not found`), then reordering; a list is used verbatim; any other
shape raises `Params must be list (positional) or dict (named)`. -/
def marshal_params (sig : String → List String) (method : String) :
    PgParams → Except PgError (List Json)
  | .noParams => .ok []
  | .named fields =>
    let signature := sig method
    if signature.isEmpty then
      .error (.valueError ("Function not found: " ++ method))
    else
      reorder_params method fields signature
  | .pos args => .ok args
  | .other => .error (.valueError "Params must be list (positional) or dict (named)")

/-- Shallow embedding of `PostgresRPC.call` (postgres_rpc.py lines
77-154), parameterised by the cached-signature lookup `sig` (the
post-cache behaviour of `_get_function_signature`, which returns `[]`
both when the function is unknown and when it takes no input parameters)
and an abstract backend over session states `σ`.  A leading-underscore
method is rejected first; on backend failure the session is rolled back
and the original error is re-raised unchanged; on success the first
column of the first row (or `None`) is returned. -/
def PostgresRPC.call {σ : Type} (be : Backend σ) (sig : String → List String)
    (schema : String) (st : σ) (method : String) (params : PgParams) :
    CallOutcome σ :=
  if startsWithUnderscore method then
    { result := .error (.valueError ("Cannot call private function: " ++ method)),
      state := st, backendCalls := [] }
  else
    match marshal_params sig method params with
    | .error e => { result := .error e, state := st, backendCalls := [] }
    | .ok args =>
      match be.execute st schema method args with
      | (.ok row, st') =>
        { result := .ok (row.getD Json.null), state := st',
          backendCalls := [(method, args)] }
      | (.error e, st') =>
        { result := .error (.backendError e), state := be.rollback st',
          backendCalls := [(method, args)] }

/-- `{**params, '_user': current_user}`: replace the value at an existing
key in place, else append the new binding. -/
def dict_insert (fields : List (String × Json)) (k : String) (v : Json) :
    List (String × Json) :=
  if fields.any (fun p => p.1 = k) then
    fields.map (fun p => if p.1 = k then (k, v) else p)
  else fields ++ [(k, v)]

/-- Shallow embedding of `AuthPostgresRPC.call` (postgres_rpc.py lines
238-294): read the caller identity from the context (`current_user`); if
absent while `require_auth` holds, raise before any backend work;
otherwise prepend the identity positionally (`None` params become
`[current_user]`, a list gets it consed in front, a dict gets it under
the reserved `'_user'` key) and delegate to the base `PostgresRPC.call`. -/
def AuthPostgresRPC.call {σ : Type} (be : Backend σ) (sig : String → List String)
    (schema : String) (st : σ) (current_user : Option Json)
    (method : String) (params : PgParams) (require_auth : Bool) :
    CallOutcome σ :=
  if current_user.isNone && require_auth then
    { result := .error (.valueError "Authentication required: no current user"),
      state := st, backendCalls := [] }
  else
    let cu := current_user.getD Json.null
    match params with
    | .noParams => PostgresRPC.call be sig schema st method (.pos [cu])
    | .pos args => PostgresRPC.call be sig schema st method (.pos (cu :: args))
    | .named fields =>
        PostgresRPC.call be sig schema st method (.named (dict_insert fields "_user" cu))
    | .other =>
      { result := .error (.valueError "Params must be list (positional) or dict (named)"),
        state := st, backendCalls := [] }

/-! ## General lemmas -/

/-- `ref = content.get('id', None)` of `call_func`, with Python `None` as
`Json.null`. -/
def rpcRef (content : Json) : Json := (content.get? "id").getD .null

/-- Reduction of the RPC branch of `call_func` (for frames arriving through
`on_message`, i.e. `method = "ws_message"`) once the auth gate has passed:
the effects are determined by the parse phase, the handler outcome and the
truthiness of the correlation id. -/
theorem call_func_rpc_eq (s : MethodSettings) (user : Option Json)
    (rpcH : RpcHandlers) (content : Json)
    (hauth : (s.auth && user.isNone) = false) :
    call_func s user rpcH "ws_message" (.rpc content) =
      match parse_rpc s content with
      | .crash =>
        { closed := none, responses := [], streams := [], runs := [],
          removedClient := false, uncaught := true }
      | .err e =>
        { closed := none,
          responses :=
            if (rpcRef content).truthy then [⟨rpcRef content, none, some e⟩] else [],
          streams := [], runs := [], removedClient := false,
          uncaught := false }
      | .ok name args kwargs =>
        match rpcH name args kwargs with
        | .error ex =>
          { closed := none,
            responses :=
              if (rpcRef content).truthy then [⟨rpcRef content, none, some ex⟩] else [],
            streams := [], runs := [.rpc name args kwargs],
            removedClient := false, uncaught := false }
        | .ok res =>
          { closed := none,
            responses :=
              if (rpcRef content).truthy then [⟨rpcRef content, some res, none⟩] else [],
            streams :=
              if (rpcRef content).truthy then
                match res with
                | .stream sid gen => [(sid, gen)]
                | .val _ => []
              else [],
            runs := [.rpc name args kwargs],
            removedClient := false, uncaught := false } := by
  unfold call_func
  rw [hauth]
  rfl

/-! ## C4 -/

/-- C4: on a path that requires authentication, an inbound frame with no
caller identity closes the connection with code 401 and reason
"not authenticated", and nothing else happens: no handler runs, no
response or stream frame is produced, whether the frame is a plain event
or an RPC call. -/
theorem c4_auth_gate_closes_connection (s : MethodSettings) (user : Option Json)
    (rpcH : RpcHandlers) (method : String) (data : FrameData)
    (hauth : s.auth = true) (huser : user = none) :
    call_func s user rpcH method data =
      { closed := some (401, "not authenticated"), responses := [],
        streams := [], runs := [], removedClient := false,
        uncaught := false } := by
  subst huser
  unfold call_func
  rw [hauth]
  rfl

/-- Witness for C4 at a concrete auth-required path: an RPC frame and a
plain event from an unauthenticated connection both yield only the
401 close. -/
theorem c4_witness :
    (call_func ⟨true, ["ping"], true, false, false⟩ none (fun _ _ _ => .ok (.val .null))
        "ws_message" (.rpc (.obj [("id", .num 1), ("method", .str "ping")])) =
      { closed := some (401, "not authenticated"), responses := [],
        streams := [], runs := [], removedClient := false,
        uncaught := false }) ∧
    (call_func ⟨true, ["ping"], true, false, false⟩ none (fun _ _ _ => .ok (.val .null))
        "ws_message" (.text "hello") =
      { closed := some (401, "not authenticated"), responses := [],
        streams := [], runs := [], removedClient := false,
        uncaught := false }) :=
  ⟨c4_auth_gate_closes_connection _ _ _ _ _ rfl rfl,
   c4_auth_gate_closes_connection _ _ _ _ _ rfl rfl⟩

/-! ## C1 -/

/-- An unauthenticated path registering a single RPC method `ping`. -/
def pingSettings : MethodSettings := ⟨false, ["ping"], false, false, false⟩

/-- Handlers whose `ping` returns Python `None`. -/
def pingHandlers : RpcHandlers := fun _ _ _ => .ok (.val .null)

/-- C1 counterexample, two reachable inputs on which the claim fails:
(i) a request that carries the correlation id `0` (a legal JSON-RPC id,
present in the envelope) resolves and executes `ping`, yet zero response
frames are produced, because `call_func` gates the response on Python
truthiness of the id (`if ref:`), not on its presence; (ii) a request
with the truthy id `1` whose `method` is the unhashable value `[]` also
produces zero response frames: the membership test
`proc not in self.method_settings.ws_rpc` raises a `TypeError` outside
the `try/except`, which escapes `call_func` uncaught. -/
theorem c1_counterexample :
    ((Json.obj [("jsonrpc", .str "2.0"), ("id", .num 0), ("method", .str "ping")]).get?
        "id" = some (.num 0) ∧
     (call_func pingSettings none pingHandlers "ws_message"
        (.rpc (.obj [("jsonrpc", .str "2.0"), ("id", .num 0), ("method", .str "ping")]))).runs
       = [.rpc "ping" [] []] ∧
     (call_func pingSettings none pingHandlers "ws_message"
        (.rpc (.obj [("jsonrpc", .str "2.0"), ("id", .num 0), ("method", .str "ping")]))).responses
       = []) ∧
    ((Json.obj [("jsonrpc", .str "2.0"), ("id", .num 1), ("method", .arr [])]).get?
        "id" = some (.num 1) ∧
     (call_func pingSettings none pingHandlers "ws_message"
        (.rpc (.obj [("jsonrpc", .str "2.0"), ("id", .num 1), ("method", .arr [])]))).responses
       = [] ∧
     (call_func pingSettings none pingHandlers "ws_message"
        (.rpc (.obj [("jsonrpc", .str "2.0"), ("id", .num 1), ("method", .arr [])]))).uncaught
       = true) :=
  ⟨⟨rfl, rfl, rfl⟩, rfl, rfl, rfl⟩

/-- A request whose `method` field is absent, `None`, or any hashable
value never takes the uncaught-`TypeError` path of the parse phase. -/
theorem parse_rpc_ne_crash (s : MethodSettings) (content : Json)
    (hmeth : ((content.get? "method").getD .null).hashable = true) :
    parse_rpc s content ≠ .crash := by
  unfold parse_rpc
  cases hm : content.get? "method" with
  | none => simp
  | some proc =>
    rw [hm] at hmeth
    simp only [Option.getD_some] at hmeth
    cases proc with
    | arr items => simp [Json.hashable] at hmeth
    | obj fields => simp [Json.hashable] at hmeth
    | null => simp
    | bool b => simp [Json.hashable]
    | num n => simp [Json.hashable]
    | str name =>
      simp only [Json.hashable, if_true]
      split
      · split <;> simp
      · simp

/-- C1 as amended: for every JSON-RPC request processed past the auth gate
whose `method` field is not an unhashable value (a JSON array or object —
those crash the dispatching task with an uncaught `TypeError`, producing
nothing), if the request carries a *truthy* correlation id (not absent,
null, `0`, `""` or `false`) then exactly one response frame is produced
and it echoes that id, carrying the result or the captured error; for a
falsy or absent correlation id zero response frames are produced, even
when the handler raises an exception. -/
theorem c1_response_iff_truthy_id (s : MethodSettings) (user : Option Json)
    (rpcH : RpcHandlers) (content : Json)
    (hauth : (s.auth && user.isNone) = false)
    (hmeth : ((content.get? "method").getD .null).hashable = true) :
    ((rpcRef content).truthy = true →
      ∃ r, (call_func s user rpcH "ws_message" (.rpc content)).responses = [r] ∧
           r.id = rpcRef content ∧ (r.result.isSome ∨ r.error.isSome)) ∧
    ((rpcRef content).truthy = false →
      (call_func s user rpcH "ws_message" (.rpc content)).responses = []) := by
  rw [call_func_rpc_eq s user rpcH content hauth]
  constructor
  · intro ht
    cases hp : parse_rpc s content with
    | crash => exact absurd hp (parse_rpc_ne_crash s content hmeth)
    | err e =>
      exact ⟨⟨rpcRef content, none, some e⟩, by simp [ht], rfl, by simp⟩
    | ok name args kwargs =>
      cases hr : rpcH name args kwargs with
      | error ex =>
        exact ⟨⟨rpcRef content, none, some ex⟩, by simp [hr, ht], rfl, by simp⟩
      | ok res =>
        exact ⟨⟨rpcRef content, some res, none⟩, by simp [hr, ht], rfl, by simp⟩
  · intro hf
    cases hp : parse_rpc s content with
    | crash => simp
    | err e => simp [hf]
    | ok name args kwargs =>
      cases hr : rpcH name args kwargs with
      | error ex => simp [hr, hf]
      | ok res => simp [hr, hf]

/-- Witness for C1: a request with the truthy id `"a"` gets exactly one
response echoing `"a"`, and the id-`0` request gets none. -/
theorem c1_witness :
    (∃ r, (call_func pingSettings none pingHandlers "ws_message"
        (.rpc (.obj [("id", .str "a"), ("method", .str "ping")]))).responses = [r] ∧
       r.id = rpcRef (.obj [("id", .str "a"), ("method", .str "ping")]) ∧
       (r.result.isSome ∨ r.error.isSome)) ∧
    (call_func pingSettings none pingHandlers "ws_message"
        (.rpc (.obj [("id", .num 0), ("method", .str "ping")]))).responses = [] :=
  ⟨(c1_response_iff_truthy_id pingSettings none pingHandlers
      (.obj [("id", .str "a"), ("method", .str "ping")]) rfl rfl).1 rfl,
   (c1_response_iff_truthy_id pingSettings none pingHandlers
      (.obj [("id", .num 0), ("method", .str "ping")]) rfl rfl).2 rfl⟩

/-! ## C8 -/

/-- When the method resolves but `params` is present, truthy and neither a
dict nor a list, the parse phase fails with -32602 and the code's exact
message "Params neither list or dict". -/
theorem parse_rpc_bad_params (s : MethodSettings) (content : Json) (name : String)
    (p : Json)
    (hm : content.get? "method" = some (.str name))
    (hreg : s.ws_rpc.contains name = true)
    (hp : content.get? "params" = some p)
    (ht : p.truthy = true)
    (hshape : (p.isObj || p.isArr) = false) :
    parse_rpc s content = .err (.rpcExc (-32602) "Params neither list or dict") := by
  have hmem : name ∈ s.ws_rpc := by simpa using hreg
  simp [parse_rpc, Json.hashable, hm, hmem, hp, ht, hshape]

/-- When the method resolves and `params` is absent, the parse phase
succeeds with empty positional args and empty kwargs. -/
theorem parse_rpc_absent_params (s : MethodSettings) (content : Json) (name : String)
    (hm : content.get? "method" = some (.str name))
    (hreg : s.ws_rpc.contains name = true)
    (hp : content.get? "params" = none) :
    parse_rpc s content = .ok name [] [] := by
  have hmem : name ∈ s.ws_rpc := by simpa using hreg
  simp [parse_rpc, Json.hashable, hm, hmem, hp, Json.truthy]

/-- C8 counterexample: (i) with `params` given as the *empty* string —
present and neither list nor dict — no -32602 error is produced and the
handler executes with empty arguments, because the code's check
`if params and not isinstance(...)` skips falsy params; (ii) with the
truthy string `"x"` the error is produced, but its message is
"Params neither list or dict", which does not contain the claimed
"neither list nor dict" wording. -/
theorem c8_counterexample :
    (call_func pingSettings none pingHandlers "ws_message"
        (.rpc (.obj [("id", .num 1), ("method", .str "ping"), ("params", .str "")]))).runs
      = [.rpc "ping" [] []] ∧
    (call_func pingSettings none pingHandlers "ws_message"
        (.rpc (.obj [("id", .num 1), ("method", .str "ping"), ("params", .str "")]))).responses
      = [⟨.num 1, some (.val .null), none⟩] ∧
    (call_func pingSettings none pingHandlers "ws_message"
        (.rpc (.obj [("id", .num 1), ("method", .str "ping"), ("params", .str "x")]))).responses
      = [⟨.num 1, none, some (.rpcExc (-32602) "Params neither list or dict")⟩] ∧
    ¬ "neither list nor dict".data <:+: "Params neither list or dict".data :=
  ⟨rfl, rfl, rfl, by decide⟩

/-- C8 as amended: for every JSON-RPC request whose `params` field is
present, *truthy*, and neither a list nor a dict, the dispatch engine
produces error -32602 with the message "Params neither list or dict" and
does not execute the handler; absent params — and falsy params such as
`""`, `0`, `false` or `null`, which the truthiness check lets through —
are treated as empty. -/
theorem c8_params_shape (s : MethodSettings) (user : Option Json) (rpcH : RpcHandlers)
    (name : String)
    (hauth : (s.auth && user.isNone) = false)
    (hreg : s.ws_rpc.contains name = true) :
    (∀ content p, content.get? "method" = some (.str name) →
        content.get? "params" = some p → p.truthy = true → (p.isObj || p.isArr) = false →
        (call_func s user rpcH "ws_message" (.rpc content)).runs = [] ∧
        ((rpcRef content).truthy = true →
          (call_func s user rpcH "ws_message" (.rpc content)).responses =
            [⟨rpcRef content, none,
              some (.rpcExc (-32602) "Params neither list or dict")⟩])) ∧
    (∀ content, content.get? "method" = some (.str name) →
        content.get? "params" = none →
        (call_func s user rpcH "ws_message" (.rpc content)).runs = [.rpc name [] []]) := by
  constructor
  · intro content p hm hp ht hshape
    rw [call_func_rpc_eq s user rpcH content hauth,
        parse_rpc_bad_params s content name p hm hreg hp ht hshape]
    exact ⟨rfl, fun h => by simp [h]⟩
  · intro content hm hp
    rw [call_func_rpc_eq s user rpcH content hauth,
        parse_rpc_absent_params s content name hm hreg hp]
    cases hr : rpcH name [] [] <;> simp [hr]

/-- Witness for C8: the truthy string params `"x"` yields -32602 with no
handler run; absent params run the handler with empty args. -/
theorem c8_witness :
    ((call_func pingSettings none pingHandlers "ws_message"
        (.rpc (.obj [("id", .num 7), ("method", .str "ping"), ("params", .str "x")]))).runs
       = [] ∧
     (call_func pingSettings none pingHandlers "ws_message"
        (.rpc (.obj [("id", .num 7), ("method", .str "ping"), ("params", .str "x")]))).responses
       = [⟨.num 7, none, some (.rpcExc (-32602) "Params neither list or dict")⟩]) ∧
    (call_func pingSettings none pingHandlers "ws_message"
        (.rpc (.obj [("method", .str "ping")]))).runs = [.rpc "ping" [] []] := by
  have h := c8_params_shape pingSettings none pingHandlers "ping" rfl rfl
  have hb := h.1 (.obj [("id", .num 7), ("method", .str "ping"), ("params", .str "x")])
      (.str "x") rfl rfl rfl rfl
  exact ⟨⟨hb.1, hb.2 rfl⟩, h.2 (.obj [("method", .str "ping")]) rfl rfl⟩

/-! ## C9 -/

/-- C9: for every JSON-RPC request without a truthy correlation id, no
stream hand-off happens and no response frame is emitted — whatever the
handler returns (in particular a stream-marker result is silently
dropped), because both are gated on `if ref:`. -/
theorem c9_falsy_id_drops_stream (s : MethodSettings) (user : Option Json)
    (rpcH : RpcHandlers) (content : Json)
    (hauth : (s.auth && user.isNone) = false)
    (href : (rpcRef content).truthy = false) :
    (call_func s user rpcH "ws_message" (.rpc content)).streams = [] ∧
    (call_func s user rpcH "ws_message" (.rpc content)).responses = [] := by
  rw [call_func_rpc_eq s user rpcH content hauth]
  cases hp : parse_rpc s content with
  | crash => simp
  | err e => simp [href]
  | ok name args kwargs =>
    cases hr : rpcH name args kwargs with
    | error ex => simp [hr, href]
    | ok res => simp [hr, href]

/-- Handlers whose `ping` returns a stream marker with two pending items. -/
def streamHandlers : RpcHandlers := fun _ _ _ => .ok (.stream "abc" [.num 1, .num 2])

/-- Witness for C9: an id-less request to a stream-returning handler
creates no stream and emits no response. -/
theorem c9_witness :
    (call_func pingSettings none streamHandlers "ws_message"
        (.rpc (.obj [("method", .str "ping")]))).streams = [] ∧
    (call_func pingSettings none streamHandlers "ws_message"
        (.rpc (.obj [("method", .str "ping")]))).responses = [] :=
  c9_falsy_id_drops_stream pingSettings none streamHandlers _ rfl rfl

/-! ## C6 -/

/-- C6: a producer run with an explicit `stream_id` emits one
`{stream_id, args: item}` frame per produced item, in production order,
followed by exactly one `{stream_id, count}` terminator whose count equals
the number of item frames; when `stream_id` is absent it is taken as the
first produced item, which is then not emitted as an item frame, and the
count covers only the remaining items. -/
theorem c6_stream_framing (gen rest : List Json) (sid first : Json) :
    (stream_results gen (some sid) =
       .ok (gen.map (StreamFrame.item sid) ++ [.done sid gen.length]) ∧
     (gen.map (StreamFrame.item sid)).length = gen.length) ∧
    stream_results (first :: rest) none =
      .ok (rest.map (StreamFrame.item first) ++ [.done first rest.length]) :=
  ⟨⟨rfl, by simp⟩, rfl⟩

/-! ## C7 -/

/-- C7 counterexample: an id filter that is provided but empty delivers to
everyone — including a connection with no identity — because the code's
`if client_ids` truthiness test treats an empty list like `None`.  Under
the claim as stated, an identity-less connection must never receive a
filtered broadcast. -/
theorem c7_counterexample :
    broadcast [("/ws", [⟨none⟩])] "/ws" (some []) = [⟨none⟩] := rfl

/-- C7 as amended: for every `broadcast(path, message, idFilter)` where a
*non-empty* idFilter is provided, the message is delivered exactly to the
live connections registered under `path` that have an identity whose
`id` field is a member of the filter (an empty filter behaves like no
filter and delivers to all). -/
theorem c7_filtered_broadcast (clientMap : List (String × List Client))
    (path : String) (ids : List Json) (cs : List Client) (c : Client)
    (hlook : clientMap.lookup path = some cs)
    (hne : ids.isEmpty = false) :
    c ∈ broadcast clientMap path (some ids) ↔
      c ∈ cs ∧ ∃ u, c.current_user = some u ∧
        ids.any (Json.beq ((u.lookup "id").getD .null)) = true := by
  unfold broadcast
  rw [hlook, List.mem_filter]
  cases hu : c.current_user with
  | none => simp [skipClient, hne, hu]
  | some u => simp [skipClient, hne, hu]

/-- Witness for C7: with filter `[1]`, the client whose identity id is `1`
receives the broadcast. -/
theorem c7_witness :
    (⟨some [("id", .num 1)]⟩ : Client) ∈
      broadcast
        [("/ws", [⟨some [("id", .num 1)]⟩, ⟨none⟩, ⟨some [("id", .num 2)]⟩])]
        "/ws" (some [.num 1]) :=
  (c7_filtered_broadcast
      [("/ws", [⟨some [("id", .num 1)]⟩, ⟨none⟩, ⟨some [("id", .num 2)]⟩])]
      "/ws" [.num 1] [⟨some [("id", .num 1)]⟩, ⟨none⟩, ⟨some [("id", .num 2)]⟩]
      ⟨some [("id", .num 1)]⟩ rfl rfl).mpr
    ⟨by simp, [("id", .num 1)], rfl, rfl⟩

/-! ## Adapter lemmas -/

/-- Look every name up in the mapping: `some` of the values in name order
when all are present, `none` as soon as one is missing.  Used to state
what the reordering loop computes. -/
def lookup_all (fields : List (String × Json)) : List String → Option (List Json)
  | [] => some []
  | n :: rest => (fields.lookup n).bind fun v => (lookup_all fields rest).map (v :: ·)

/-- If every signature-listed name is present in the mapping, the
reordering loop returns exactly the looked-up values in signature order. -/
theorem reorder_params_ok (method : String) (fields : List (String × Json))
    (names : List String) (vals : List Json)
    (h : lookup_all fields names = some vals) :
    reorder_params method fields names = .ok vals := by
  induction names generalizing vals with
  | nil =>
    simp [lookup_all] at h
    subst h
    rfl
  | cons n rest ih =>
    cases hl : fields.lookup n with
    | none => simp [lookup_all, hl] at h
    | some v =>
      simp [lookup_all, hl] at h
      obtain ⟨tl, htl, hv⟩ := h
      subst hv
      simp [reorder_params, hl, ih tl htl, Except.map]

/-- The reordering loop raises the `Missing required parameter` error
naming the first signature-listed name absent from the mapping. -/
theorem reorder_params_missing (method : String) (fields : List (String × Json))
    (names : List String) (name : String)
    (h : names.find? (fun n => (fields.lookup n).isNone) = some name) :
    reorder_params method fields names =
      .error (.valueError
        ("Missing required parameter: " ++ name ++ " for function " ++ method)) := by
  induction names with
  | nil => simp at h
  | cons n rest ih =>
    cases hl : fields.lookup n with
    | none =>
      rw [List.find?_cons_of_pos _ (by simp [hl])] at h
      obtain rfl : n = name := by simpa using h
      simp [reorder_params, hl]
    | some v =>
      rw [List.find?_cons_of_neg _ (by simp [hl])] at h
      simp [reorder_params, hl, ih h, Except.map]

/-- Reduction of `PostgresRPC.call` when the method is public and the
params marshal to `args`: the backend is invoked once with `args`. -/
theorem call_eq_of_ok_marshal {σ : Type} (be : Backend σ) (sig : String → List String)
    (schema : String) (st : σ) (method : String) (params : PgParams) (args : List Json)
    (hpriv : startsWithUnderscore method = false)
    (hm : marshal_params sig method params = .ok args) :
    PostgresRPC.call be sig schema st method params =
      match be.execute st schema method args with
      | (.ok row, st') =>
        { result := .ok (row.getD Json.null), state := st',
          backendCalls := [(method, args)] }
      | (.error e, st') =>
        { result := .error (.backendError e), state := be.rollback st',
          backendCalls := [(method, args)] } := by
  simp [PostgresRPC.call, hpriv, hm]

/-- Reduction of `PostgresRPC.call` when marshalling fails: the error is
raised with no backend invocation and an unchanged session state. -/
theorem call_eq_of_marshal_error {σ : Type} (be : Backend σ) (sig : String → List String)
    (schema : String) (st : σ) (method : String) (params : PgParams) (e : PgError)
    (hpriv : startsWithUnderscore method = false)
    (hm : marshal_params sig method params = .error e) :
    PostgresRPC.call be sig schema st method params =
      { result := .error e, state := st, backendCalls := [] } := by
  simp [PostgresRPC.call, hpriv, hm]

/-! ## C2 -/

/-- C2: for a named-params call on a public method with a non-empty cached
signature, (i) when every signature-listed name is present the backend is
invoked exactly once with the values marshalled positionally in signature
order, and (ii) when a signature-listed name is missing the call raises
the invalid-call error naming the first such missing parameter, with no
backend invocation. -/
theorem c2_named_param_marshalling {σ : Type} (be : Backend σ)
    (sig : String → List String) (schema : String) (st : σ) (method : String)
    (fields : List (String × Json))
    (hpriv : startsWithUnderscore method = false)
    (hsig : (sig method).isEmpty = false) :
    (∀ vals, lookup_all fields (sig method) = some vals →
      (PostgresRPC.call be sig schema st method (.named fields)).backendCalls
        = [(method, vals)]) ∧
    (∀ name, (sig method).find? (fun n => (fields.lookup n).isNone) = some name →
      (PostgresRPC.call be sig schema st method (.named fields)).result =
        .error (.valueError
          ("Missing required parameter: " ++ name ++ " for function " ++ method)) ∧
      (PostgresRPC.call be sig schema st method (.named fields)).backendCalls = []) := by
  constructor
  · intro vals hv
    have hm : marshal_params sig method (.named fields) = .ok vals := by
      simp [marshal_params, hsig, reorder_params_ok method fields _ vals hv]
    rw [call_eq_of_ok_marshal be sig schema st method _ vals hpriv hm]
    rcases hx : be.execute st schema method vals with ⟨r, st2⟩
    cases r <;> simp [hx]
  · intro name hn
    have hm : marshal_params sig method (.named fields) =
        .error (.valueError
          ("Missing required parameter: " ++ name ++ " for function " ++ method)) := by
      simp [marshal_params, hsig, reorder_params_missing method fields _ name hn]
    rw [call_eq_of_marshal_error be sig schema st method _ _ hpriv hm]
    exact ⟨rfl, rfl⟩

/-- A degenerate backend over a unit session state whose every execution
returns the number 13, used to instantiate adapter theorems. -/
def unitBackend : Backend Unit where
  execute := fun st _ _ _ => (.ok (some (.num 13)), st)
  rollback := fun st => st

/-- Witness for C2, matching the spec's example: schema `["x","y"]` with
params `{"y":7,"x":6}` sends `[6,7]` to the backend, and omitting `"y"`
raises the invalid-call error naming `y` with no backend call. -/
theorem c2_witness :
    (PostgresRPC.call unitBackend (fun _ => ["x", "y"]) "public" () "add"
        (.named [("y", .num 7), ("x", .num 6)])).backendCalls
      = [("add", [.num 6, .num 7])] ∧
    ((PostgresRPC.call unitBackend (fun _ => ["x", "y"]) "public" () "add"
        (.named [("x", .num 6)])).result =
      .error (.valueError "Missing required parameter: y for function add") ∧
     (PostgresRPC.call unitBackend (fun _ => ["x", "y"]) "public" () "add"
        (.named [("x", .num 6)])).backendCalls = []) :=
  ⟨(c2_named_param_marshalling unitBackend (fun _ => ["x", "y"]) "public" () "add"
      [("y", .num 7), ("x", .num 6)] rfl rfl).1 [.num 6, .num 7] rfl,
   (c2_named_param_marshalling unitBackend (fun _ => ["x", "y"]) "public" () "add"
      [("x", .num 6)] rfl rfl).2 "y" rfl⟩

/-! ## C10 -/

/-- `_get_function_signature` post-query normalisation (postgres_rpc.py
lines 193-199): `if not result or not result[0]: signature = []`.  The
fetched row is `none` when no row comes back, `some none` when the
aggregated array is NULL — which happens both when the function does not
exist and when it has zero input parameters, making the two
indistinguishable in the cache — and `some (some l)` otherwise (an empty
aggregated list is also falsy and normalises to `[]`). -/
def signature_of_row : Option (Option (List String)) → List String
  | none => []
  | some none => []
  | some (some l) => if l.isEmpty then [] else l

/-- C10: a "function not found" row and a zero-input-parameter row cache
the same empty signature, and a named-params call against an empty cached
signature raises the `Function not found` invalid-call error with no
backend invocation; the same method called with positional or absent
params does reach the backend. -/
theorem c10_empty_signature_named_params {σ : Type} (be : Backend σ)
    (sig : String → List String) (schema : String) (st : σ) (method : String)
    (fields : List (String × Json)) (args : List Json)
    (hpriv : startsWithUnderscore method = false)
    (hsig : (sig method).isEmpty = true) :
    (signature_of_row none = [] ∧ signature_of_row (some none) = []) ∧
    ((PostgresRPC.call be sig schema st method (.named fields)).result =
        .error (.valueError ("Function not found: " ++ method)) ∧
     (PostgresRPC.call be sig schema st method (.named fields)).backendCalls = []) ∧
    (PostgresRPC.call be sig schema st method (.pos args)).backendCalls
      = [(method, args)] ∧
    (PostgresRPC.call be sig schema st method .noParams).backendCalls
      = [(method, [])] := by
  refine ⟨⟨rfl, rfl⟩, ?_, ?_, ?_⟩
  · have hm : marshal_params sig method (.named fields) =
        .error (.valueError ("Function not found: " ++ method)) := by
      simp [marshal_params, hsig]
    rw [call_eq_of_marshal_error be sig schema st method _ _ hpriv hm]
    exact ⟨rfl, rfl⟩
  · rw [call_eq_of_ok_marshal be sig schema st method (.pos args) args hpriv rfl]
    rcases hx : be.execute st schema method args with ⟨r, st2⟩
    cases r <;> simp [hx]
  · rw [call_eq_of_ok_marshal be sig schema st method .noParams [] hpriv rfl]
    rcases hx : be.execute st schema method [] with ⟨r, st2⟩
    cases r <;> simp [hx]

/-- Witness for C10: with an empty cached signature for `greeting`, a
named-params call fails with `Function not found` and no backend call,
while a positional call reaches the backend. -/
theorem c10_witness :
    ((PostgresRPC.call unitBackend (fun _ => []) "public" () "greeting"
        (.named [("x", .num 1)])).result =
      .error (.valueError "Function not found: greeting") ∧
     (PostgresRPC.call unitBackend (fun _ => []) "public" () "greeting"
        (.named [("x", .num 1)])).backendCalls = []) ∧
    (PostgresRPC.call unitBackend (fun _ => []) "public" () "greeting"
        .noParams).backendCalls = [("greeting", [])] :=
  ⟨(c10_empty_signature_named_params unitBackend (fun _ => []) "public" () "greeting"
      [("x", .num 1)] [] rfl rfl).2.1,
   (c10_empty_signature_named_params unitBackend (fun _ => []) "public" () "greeting"
      [("x", .num 1)] [] rfl rfl).2.2.2⟩

/-! ## C5 -/

/-- C5: when the backend execution of a marshalled call fails, the session
rollback is attempted on the state the failure left behind and the
original backend error is re-raised unchanged; the resulting connector
state is the rolled-back one, so any subsequent call whose execution
succeeds on that state returns its value (e.g. `add(1,1) = 2` after a
failed call). -/
theorem c5_rollback_and_reraise {σ : Type} (be : Backend σ)
    (sig : String → List String) (schema : String) (st st' : σ) (method : String)
    (params : PgParams) (args : List Json) (e : String)
    (hpriv : startsWithUnderscore method = false)
    (hm : marshal_params sig method params = .ok args)
    (hx : be.execute st schema method args = (.error e, st')) :
    (PostgresRPC.call be sig schema st method params).result
      = .error (.backendError e) ∧
    (PostgresRPC.call be sig schema st method params).state = be.rollback st' ∧
    ∀ (method2 : String) (params2 : PgParams) (args2 : List Json) (v : Json) (st2 : σ),
      startsWithUnderscore method2 = false →
      marshal_params sig method2 params2 = .ok args2 →
      be.execute (be.rollback st') schema method2 args2 = (.ok (some v), st2) →
      (PostgresRPC.call be sig schema (be.rollback st') method2 params2).result
        = .ok v := by
  rw [call_eq_of_ok_marshal be sig schema st method params args hpriv hm, hx]
  refine ⟨rfl, rfl, ?_⟩
  intro method2 params2 args2 v st2 hpriv2 hm2 hx2
  rw [call_eq_of_ok_marshal be sig schema _ method2 params2 args2 hpriv2 hm2, hx2]
  rfl

/-- A backend whose session state records whether the transaction is
clean: a call to `add` on a clean session returns the sum; any other
method fails ("does not exist") and dirties the session; every call on a
dirty session fails until `rollback` restores cleanliness.  Models the
spec scenario "after calling a nonexistent function, add(1,1) returns 2". -/
def txBackend : Backend Bool where
  execute := fun clean _ method args =>
    if clean then
      match method, args with
      | "add", [Json.num a, Json.num b] => (.ok (some (.num (a + b))), true)
      | _, _ => (.error ("function " ++ method ++ " does not exist"), false)
    else (.error "current transaction is aborted", false)
  rollback := fun _ => true

/-- Witness for C5 on `txBackend`: the call to the nonexistent function
re-raises the backend error and leaves a rolled-back (clean) session, and
the subsequent `add(1,1)` on that session returns `2`. -/
theorem c5_witness :
    (PostgresRPC.call txBackend (fun _ => []) "public" true "nope" (.pos [])).result
      = .error (.backendError "function nope does not exist") ∧
    (PostgresRPC.call txBackend (fun _ => []) "public" true "nope" (.pos [])).state
      = true ∧
    (PostgresRPC.call txBackend (fun _ => []) "public" true "add"
        (.pos [.num 1, .num 1])).result = .ok (.num 2) := by
  have h := c5_rollback_and_reraise txBackend (fun _ => []) "public" true false "nope"
      (.pos []) [] "function nope does not exist" rfl rfl rfl
  exact ⟨h.1, h.2.1, h.2.2 "add" (.pos [.num 1, .num 1]) [.num 1, .num 1]
      (.num 2) true rfl rfl rfl⟩

/-! ## C3 -/

/-- Replacing the value at an existing key keeps it findable with the new
value. -/
theorem lookup_map_replace (fields : List (String × Json)) (k : String) (v : Json)
    (h : fields.any (fun p => p.1 = k) = true) :
    (fields.map (fun p => if p.1 = k then (k, v) else p)).lookup k = some v := by
  induction fields with
  | nil => simp at h
  | cons p rest ih =>
    obtain ⟨pk, pv⟩ := p
    by_cases hk : pk = k
    · subst hk
      rw [List.map_cons, if_pos rfl]
      exact List.lookup_cons_self
    · simp only [List.any_cons, Bool.or_eq_true, decide_eq_true_eq] at h
      rcases h with h | h
      · exact absurd h hk
      · simp only [List.map_cons, if_neg hk]
        simp only [List.lookup, beq_eq_false_iff_ne.mpr (Ne.symm hk)]
        exact ih (by simpa using h)

/-- Appending a fresh key makes it findable. -/
theorem lookup_append_new (fields : List (String × Json)) (k : String) (v : Json)
    (h : fields.any (fun p => p.1 = k) = false) :
    (fields ++ [(k, v)]).lookup k = some v := by
  induction fields with
  | nil => simp [List.lookup]
  | cons p rest ih =>
    obtain ⟨pk, pv⟩ := p
    simp only [List.any_cons, Bool.or_eq_false_iff, decide_eq_false_iff_not] at h
    simp only [List.cons_append, List.lookup, beq_eq_false_iff_ne.mpr (Ne.symm h.1)]
    exact ih (by simp [h.2])

/-- `{**params, '_user': u}` always maps the reserved key to the injected
identity. -/
theorem dict_insert_lookup_self (fields : List (String × Json)) (k : String) (v : Json) :
    (dict_insert fields k v).lookup k = some v := by
  unfold dict_insert
  cases hcase : fields.any (fun p => p.1 = k) with
  | true => simp [hcase, lookup_map_replace fields k v hcase]
  | false => simp [hcase, lookup_append_new fields k v hcase]

/-- C3 counterexample: when the cached signature does not list the
reserved `_user` key first — here `["a", "_user"]` — the injected identity
`42` resolves to the *second* position of the marshalled argument list
(`[1, 42]`), not the first, so the claim's "resolves to the first
position" fails as stated. -/
theorem c3_counterexample :
    (AuthPostgresRPC.call unitBackend (fun _ => ["a", "_user"]) "public" ()
        (some (.num 42)) "f" (.named [("a", .num 1)]) true).backendCalls
      = [("f", [.num 1, .num 42])] ∧
    [Json.num 1, Json.num 42].head? ≠ some (Json.num 42) :=
  ⟨rfl, by simp⟩

/-- C3 as amended: with a caller identity present, (i) positional params
get the identity prepended as the first backend argument (identity `42`
with `[5,3]` reaches the backend as `[42,5,3]`), and (ii) named params
get the identity injected under the reserved `'_user'` key, which
resolves to the position at which the cached signature lists `'_user'` —
the first position exactly when the function declares the user parameter
first, as the adapter assumes. -/
theorem c3_identity_injection {σ : Type} (be : Backend σ)
    (sig : String → List String) (schema : String) (st : σ) (u : Json)
    (method : String) (args : List Json) (fields : List (String × Json))
    (hpriv : startsWithUnderscore method = false) :
    ((AuthPostgresRPC.call be sig schema st (some u) method (.pos args) true).backendCalls
       = [(method, u :: args)]) ∧
    ((dict_insert fields "_user" u).lookup "_user" = some u) ∧
    (∀ rest vals, sig method = "_user" :: rest →
       lookup_all (dict_insert fields "_user" u) rest = some vals →
       (AuthPostgresRPC.call be sig schema st (some u) method (.named fields) true).backendCalls
         = [(method, u :: vals)]) := by
  refine ⟨?_, dict_insert_lookup_self fields "_user" u, ?_⟩
  · show (PostgresRPC.call be sig schema st method (.pos (u :: args))).backendCalls = _
    rw [call_eq_of_ok_marshal be sig schema st method (.pos (u :: args)) (u :: args)
        hpriv rfl]
    rcases hx : be.execute st schema method (u :: args) with ⟨r, st2⟩
    cases r <;> simp [hx]
  · intro rest vals hs hv
    have hm : marshal_params sig method (.named (dict_insert fields "_user" u))
        = .ok (u :: vals) := by
      have hr : reorder_params method (dict_insert fields "_user" u) ("_user" :: rest)
          = .ok (u :: vals) := by
        simp [reorder_params, dict_insert_lookup_self fields "_user" u,
              reorder_params_ok method _ rest vals hv, Except.map]
      simp [marshal_params, hs, hr]
    show (PostgresRPC.call be sig schema st method
        (.named (dict_insert fields "_user" u))).backendCalls = _
    rw [call_eq_of_ok_marshal be sig schema st method _ (u :: vals) hpriv hm]
    rcases hx : be.execute st schema method (u :: vals) with ⟨r, st2⟩
    cases r <;> simp [hx]

/-- Witness for C3, matching the spec's example: identity `42` with
positional params `[5,3]` reaches the backend as `[42,5,3]`; and with a
signature listing `_user` first, named params `{"x":5}` reach the backend
as `[42,5]`. -/
theorem c3_witness :
    (AuthPostgresRPC.call unitBackend (fun _ => ["_user", "x"]) "public" ()
        (some (.num 42)) "proc" (.pos [.num 5, .num 3]) true).backendCalls
      = [("proc", [.num 42, .num 5, .num 3])] ∧
    (AuthPostgresRPC.call unitBackend (fun _ => ["_user", "x"]) "public" ()
        (some (.num 42)) "proc" (.named [("x", .num 5)]) true).backendCalls
      = [("proc", [.num 42, .num 5])] := by
  have h := c3_identity_injection unitBackend (fun _ => ["_user", "x"]) "public" ()
      (.num 42) "proc" [.num 5, .num 3] [("x", .num 5)] rfl
  exact ⟨h.1, h.2.2 ["x"] [.num 5] rfl rfl⟩

end Gust
